import Mathlib

/-!
Shallow embedding of the sakura_snap screenshot capture core
(`screenshot_module.py` and the capture worker of `desktop_app.py`),
with theorems checking the natural-language specification against it.

Modelling conventions:
* Python `int` is `Int`; Python `float` scores are `ℚ` (the similarity
  comparator is an external collaborator, abstracted as a parameter).
* The filesystem is `String → Bool` (does this path exist?), with write
  and remove as pointwise updates.
* Fallible operations return `Except String _`; a Python `try/except`
  that swallows everything becomes a total `match` on the `Except`.
-/

namespace SakuraSnap

/-- `MIN_REGION_SIZE = 1` from `screenshot_module.py`. -/
def MIN_REGION_SIZE : Int := 1

/-- `DEFAULT_SIMILARITY_THRESHOLD = 95` from `screenshot_module.py`. -/
def DEFAULT_SIMILARITY_THRESHOLD : ℚ := 95

/-- Embeds `ScreenshotCapture._validate_region` (screenshot_module.py,
lines 130-156).  The screen size, read from `pyautogui.size()` in the
source, is passed explicitly.  The region is the `[x, y, width, height]`
list; the result is the clamped `(x, y, width, height)` tuple. -/
def validate_region (screen_width screen_height : Int)
    (region : Int × Int × Int × Int) : Int × Int × Int × Int :=
  let x := region.1
  let y := region.2.1
  let width := region.2.2.1
  let height := region.2.2.2
  let x := max 0 (min x (screen_width - 1))
  let y := max 0 (min y (screen_height - 1))
  let max_width := screen_width - x
  let max_height := screen_height - y
  let width := max MIN_REGION_SIZE (min width max_width)
  let height := max MIN_REGION_SIZE (min height max_height)
  (x, y, width, height)

/-- C4: region clamping is idempotent on in-bounds input: a rectangle
with `x ∈ [0, screenWidth-1]`, `y ∈ [0, screenHeight-1]`,
`width ∈ [1, screenWidth-x]`, `height ∈ [1, screenHeight-y]` is a fixed
point of `_validate_region`, so applying it twice returns the same
rectangle as applying it once (and equals the input). -/
theorem validate_region_idempotent_in_bounds
    (sw sh x y w h : Int)
    (hx0 : 0 ≤ x) (hx1 : x ≤ sw - 1)
    (hy0 : 0 ≤ y) (hy1 : y ≤ sh - 1)
    (hw0 : 1 ≤ w) (hw1 : w ≤ sw - x)
    (hh0 : 1 ≤ h) (hh1 : h ≤ sh - y) :
    validate_region sw sh (validate_region sw sh (x, y, w, h)) =
      validate_region sw sh (x, y, w, h) ∧
    validate_region sw sh (x, y, w, h) = (x, y, w, h) := by
  have hfix : validate_region sw sh (x, y, w, h) = (x, y, w, h) := by
    simp only [validate_region, MIN_REGION_SIZE, Prod.mk.injEq]
    omega
  exact ⟨by simp only [hfix], hfix⟩

/-- Witness for C4 at a concrete in-bounds rectangle on a 1920×1080
screen. -/
theorem validate_region_idempotent_in_bounds_witness :
    validate_region 1920 1080 (validate_region 1920 1080 (10, 20, 300, 400)) =
      validate_region 1920 1080 (10, 20, 300, 400) ∧
    validate_region 1920 1080 (10, 20, 300, 400) = (10, 20, 300, 400) :=
  validate_region_idempotent_in_bounds 1920 1080 10 20 300 400
    (by decide) (by decide) (by decide) (by decide)
    (by decide) (by decide) (by decide) (by decide)

/-- C5: on a 1920×1080 screen, clamping `{x:-5, y:-5, width:100000,
height:100000}` with `_validate_region` returns exactly
`{x:0, y:0, width:1920, height:1080}`. -/
theorem validate_region_scenario_d :
    validate_region 1920 1080 (-5, -5, 100000, 100000) = (0, 0, 1920, 1080) := by
  decide

/-- C10: for every input rectangle and every screen with
`screenWidth ≥ 1` and `screenHeight ≥ 1`, the clamped rectangle lies
within screen bounds with minimum size 1×1:
`0 ≤ x' ≤ screenWidth-1`, `0 ≤ y' ≤ screenHeight-1`,
`1 ≤ width' ≤ screenWidth - x'`, `1 ≤ height' ≤ screenHeight - y'`. -/
theorem validate_region_in_bounds
    (sw sh x y w h : Int) (hsw : 1 ≤ sw) (hsh : 1 ≤ sh) :
    0 ≤ (validate_region sw sh (x, y, w, h)).1 ∧
    (validate_region sw sh (x, y, w, h)).1 ≤ sw - 1 ∧
    0 ≤ (validate_region sw sh (x, y, w, h)).2.1 ∧
    (validate_region sw sh (x, y, w, h)).2.1 ≤ sh - 1 ∧
    1 ≤ (validate_region sw sh (x, y, w, h)).2.2.1 ∧
    (validate_region sw sh (x, y, w, h)).2.2.1 ≤
      sw - (validate_region sw sh (x, y, w, h)).1 ∧
    1 ≤ (validate_region sw sh (x, y, w, h)).2.2.2 ∧
    (validate_region sw sh (x, y, w, h)).2.2.2 ≤
      sh - (validate_region sw sh (x, y, w, h)).2.1 := by
  simp only [validate_region, MIN_REGION_SIZE]
  refine ⟨by omega, by omega, by omega, by omega, by omega, ?_, by omega, ?_⟩
  · omega
  · omega

/-- Witness for C10 at a wildly out-of-bounds rectangle on an 800×600
screen. -/
theorem validate_region_in_bounds_witness :
    1 ≤ (800 : Int) ∧ 1 ≤ (600 : Int) ∧
    (0 ≤ (validate_region 800 600 (-3000, 4000, -7, 99999)).1 ∧
     (validate_region 800 600 (-3000, 4000, -7, 99999)).1 ≤ 800 - 1 ∧
     0 ≤ (validate_region 800 600 (-3000, 4000, -7, 99999)).2.1 ∧
     (validate_region 800 600 (-3000, 4000, -7, 99999)).2.1 ≤ 600 - 1 ∧
     1 ≤ (validate_region 800 600 (-3000, 4000, -7, 99999)).2.2.1 ∧
     (validate_region 800 600 (-3000, 4000, -7, 99999)).2.2.1 ≤
       800 - (validate_region 800 600 (-3000, 4000, -7, 99999)).1 ∧
     1 ≤ (validate_region 800 600 (-3000, 4000, -7, 99999)).2.2.2 ∧
     (validate_region 800 600 (-3000, 4000, -7, 99999)).2.2.2 ≤
       600 - (validate_region 800 600 (-3000, 4000, -7, 99999)).2.1) :=
  ⟨by decide, by decide,
   validate_region_in_bounds 800 600 (-3000) 4000 (-7) 99999 (by decide) (by decide)⟩

/-! ## Capture session state and the capture/dedup step -/

/-- The mutable state of a `ScreenshotCapture` object (screenshot_module.py,
lines 44-56).  `save_path` and `last_screenshot_path` are `Optional[str]`;
`region` is an optional `[x, y, width, height]` list. -/
structure ScreenshotCapture where
  save_path : Option String
  duration : Int
  interval : Int
  region : Option (List Int)
  is_running : Bool
  similarity_threshold : ℚ
  last_screenshot_path : Option String
deriving Repr, DecidableEq

/-- Embeds `ScreenshotCapture.setup` (screenshot_module.py, lines 58-79):
stores the five arguments and resets `last_screenshot_path` to `None`. -/
def setup (st : ScreenshotCapture) (save_path : String) (duration interval : Int)
    (region : Option (List Int)) (similarity_threshold : ℚ) : ScreenshotCapture :=
  { st with
    save_path := some save_path
    duration := duration
    interval := interval
    region := region
    similarity_threshold := similarity_threshold
    last_screenshot_path := none }

/-- The filesystem seen by the capture step: which paths currently hold a
file. -/
def FileSystem : Type := String → Bool

/-- `screenshot.save(filepath)`: after the write the path exists. -/
def writeFile (fs : FileSystem) (path : String) : FileSystem :=
  fun p => if p = path then true else fs p

/-- `os.remove(filepath)`: after the removal the path does not exist. -/
def removeFile (fs : FileSystem) (path : String) : FileSystem :=
  fun p => if p = path then false else fs p

/-- Python truthiness of `self.last_screenshot_path` in
`if self.last_screenshot_path and os.path.exists(...)`: `None` and the
empty string are falsy. -/
def pathTruthy : Option String → Bool
  | none => false
  | some p => p ≠ ""

/-- Embeds `ScreenshotCapture._check_and_handle_duplicate`
(screenshot_module.py, lines 158-178).  The similarity comparator
`sim` (the `calculate_similarity` call at line 170) is passed as a
parameter.  Returns the updated object state, the updated filesystem,
and the Python return value `(filename?, similarity?)`. -/
def check_and_handle_duplicate (sim : String → String → ℚ) (fs : FileSystem)
    (st : ScreenshotCapture) (filename filepath : String) :
    ScreenshotCapture × FileSystem × (Option String × Option ℚ) :=
  if pathTruthy st.last_screenshot_path ∧
      fs (st.last_screenshot_path.getD "") = true then
    if st.similarity_threshold ≤ sim (st.last_screenshot_path.getD "") filepath then
      (st, removeFile fs filepath,
        (none, some (sim (st.last_screenshot_path.getD "") filepath)))
    else
      ({ st with last_screenshot_path := some filepath }, fs, (some filename, none))
  else
    ({ st with last_screenshot_path := some filepath }, fs, (some filename, none))

/-- Embeds the success path of `ScreenshotCapture.capture`
(screenshot_module.py, lines 96-111): the screenshot is taken and saved
to `filepath` (the timestamped name is passed in, as the timestamp is
environmental), then `_check_and_handle_duplicate` runs on the result. -/
def captureRun (sim : String → String → ℚ) (fs : FileSystem)
    (st : ScreenshotCapture) (filename filepath : String) :
    ScreenshotCapture × FileSystem × (Option String × Option ℚ) :=
  check_and_handle_duplicate sim (writeFile fs filepath) st filename filepath

/-- Embeds `ScreenshotCapture.capture` (screenshot_module.py, lines
81-111) including the `try/except` around `_take_screenshot` and
`screenshot.save`: if the screenshot primitive fails the exception is
re-raised as `Except.error`; otherwise the file is written and the
duplicate check runs. -/
def capture (sim : String → String → ℚ) (fs : FileSystem)
    (st : ScreenshotCapture) (filename filepath : String) (shot_ok : Bool) :
    Except String (ScreenshotCapture × FileSystem × (Option String × Option ℚ)) :=
  if shot_ok then
    Except.ok (captureRun sim fs st filename filepath)
  else
    Except.error "スクリーンショット取得に失敗しました"

/-- C1: if `last_screenshot_path` is set (truthy) and refers to an
existing file, and the computed similarity between that file and the
newly written capture is ≥ `similarity_threshold`, then `capture`
deletes the newly written file, returns the duplicate outcome
`(None, similarity)` carrying that score, and leaves
`last_screenshot_path` unchanged. -/
theorem capture_duplicate_deletes_and_keeps_baseline
    (sim : String → String → ℚ) (fs : FileSystem) (st : ScreenshotCapture)
    (filename filepath prev : String)
    (hprev : st.last_screenshot_path = some prev) (hne : prev ≠ "")
    (hexists : fs prev = true)
    (hsim : st.similarity_threshold ≤ sim prev filepath) :
    capture sim fs st filename filepath true =
      Except.ok (st, removeFile (writeFile fs filepath) filepath,
        (none, some (sim prev filepath))) ∧
    (captureRun sim fs st filename filepath).2.1 filepath = false ∧
    (captureRun sim fs st filename filepath).1.last_screenshot_path =
      st.last_screenshot_path := by
  have hwf : writeFile fs filepath prev = true := by
    simp only [writeFile]
    split <;> simp [hexists]
  have hrun : captureRun sim fs st filename filepath =
      (st, removeFile (writeFile fs filepath) filepath,
        (none, some (sim prev filepath))) := by
    simp only [captureRun, check_and_handle_duplicate, hprev, Option.getD_some]
    rw [if_pos ⟨by simp [pathTruthy, hne], hwf⟩, if_pos hsim]
  refine ⟨?_, ?_, ?_⟩
  · simp only [capture, if_pos, hrun]
  · simp [hrun, removeFile]
  · simp only [hrun]

/-- Witness for C1: a session whose baseline `"a.png"` exists and a
comparator reporting similarity 97 against threshold 95. -/
theorem capture_duplicate_deletes_and_keeps_baseline_witness :
    (let st : ScreenshotCapture :=
      { save_path := some "out", duration := 60, interval := 5, region := none,
        is_running := true, similarity_threshold := 95,
        last_screenshot_path := some "a.png" }
     let fs : FileSystem := fun p => p = "a.png"
     let sim : String → String → ℚ := fun _ _ => 97
     capture sim fs st "b.png" "out/b.png" true =
       Except.ok (st, removeFile (writeFile fs "out/b.png") "out/b.png",
         (none, some (sim "a.png" "out/b.png"))) ∧
     (captureRun sim fs st "b.png" "out/b.png").2.1 "out/b.png" = false ∧
     (captureRun sim fs st "b.png" "out/b.png").1.last_screenshot_path =
       st.last_screenshot_path) :=
  capture_duplicate_deletes_and_keeps_baseline
    (fun _ _ => 97) (fun p => p = "a.png")
    { save_path := some "out", duration := 60, interval := 5, region := none,
      is_running := true, similarity_threshold := 95,
      last_screenshot_path := some "a.png" }
    "b.png" "out/b.png" "a.png" rfl (by decide) (by simp) (by norm_num)

/-- C2: if no prior kept image exists — `last_screenshot_path` is unset
(or falsy) or the recorded baseline no longer exists on disk after the
new file is written — or the computed similarity is strictly below the
threshold, then `capture` returns the kept outcome `(filename, None)`
and updates `last_screenshot_path` to the newly written path. -/
theorem capture_kept_updates_baseline
    (sim : String → String → ℚ) (fs : FileSystem) (st : ScreenshotCapture)
    (filename filepath : String)
    (h : ∀ prev, st.last_screenshot_path = some prev →
      prev = "" ∨ writeFile fs filepath prev = false ∨
      sim prev filepath < st.similarity_threshold) :
    capture sim fs st filename filepath true =
      Except.ok ({ st with last_screenshot_path := some filepath },
        writeFile fs filepath, (some filename, none)) := by
  simp only [capture, if_pos, captureRun, check_and_handle_duplicate]
  match hp : st.last_screenshot_path with
  | none => simp [pathTruthy]
  | some prev =>
    simp only [Option.getD_some]
    rcases h prev hp with he | hgone | hlow
    · simp [pathTruthy, he]
    · rw [if_neg]
      rintro ⟨-, hex⟩
      rw [hgone] at hex
      exact Bool.false_ne_true hex
    · by_cases ht : pathTruthy (some prev) ∧ writeFile fs filepath prev = true
      · rw [if_pos ht, if_neg (not_le.mpr (by simpa using hlow))]
      · rw [if_neg (by simpa using ht)]

/-- Witness for C2: first tick of a fresh session (`last_screenshot_path
= None`) keeps the capture and records its path. -/
theorem capture_kept_updates_baseline_witness :
    (let st : ScreenshotCapture :=
      { save_path := some "out", duration := 60, interval := 5, region := none,
        is_running := true, similarity_threshold := 95,
        last_screenshot_path := none }
     let fs : FileSystem := fun _ => false
     let sim : String → String → ℚ := fun _ _ => 100
     capture sim fs st "a.png" "out/a.png" true =
       Except.ok ({ st with last_screenshot_path := some "out/a.png" },
         writeFile fs "out/a.png", (some "a.png", none))) :=
  capture_kept_updates_baseline (fun _ _ => 100) (fun _ => false)
    { save_path := some "out", duration := 60, interval := 5, region := none,
      is_running := true, similarity_threshold := 95,
      last_screenshot_path := none }
    "a.png" "out/a.png" (fun prev hp => by cases hp)

/-- C8: whenever `capture` returns without raising, its result is exactly
one of two exclusive shapes: `(filename, None)` for a kept capture or
`(None, similarity)` for a duplicate, and in the duplicate shape the
carried similarity is ≥ the session's `similarity_threshold`. -/
theorem capture_result_shapes
    (sim : String → String → ℚ) (fs : FileSystem) (st : ScreenshotCapture)
    (filename filepath : String) (shot_ok : Bool)
    (res : ScreenshotCapture × FileSystem × (Option String × Option ℚ))
    (hok : capture sim fs st filename filepath shot_ok = Except.ok res) :
    res.2.2 = (some filename, none) ∨
    ∃ s : ℚ, res.2.2 = (none, some s) ∧ st.similarity_threshold ≤ s := by
  have hshape : ∀ fs' : FileSystem,
      (check_and_handle_duplicate sim fs' st filename filepath).2.2
        = (some filename, none) ∨
      ∃ s : ℚ, (check_and_handle_duplicate sim fs' st filename filepath).2.2
        = (none, some s) ∧ st.similarity_threshold ≤ s := by
    intro fs'
    unfold check_and_handle_duplicate
    split
    · split
      · exact Or.inr ⟨_, rfl, by assumption⟩
      · exact Or.inl rfl
    · exact Or.inl rfl
  cases shot_ok with
  | false => exact absurd hok (by simp [capture])
  | true =>
    have : res = captureRun sim fs st filename filepath := by
      simpa [capture] using hok.symm
    rw [this, captureRun]
    exact hshape _

/-- Witness for C8: a duplicate tick (similarity 99 ≥ threshold 95)
falls into the duplicate shape. -/
theorem capture_result_shapes_witness :
    (let st : ScreenshotCapture :=
      { save_path := some "out", duration := 60, interval := 5, region := none,
        is_running := true, similarity_threshold := 95,
        last_screenshot_path := some "a.png" }
     let fs : FileSystem := fun p => p = "a.png"
     let sim : String → String → ℚ := fun _ _ => 99
     let res := captureRun sim fs st "b.png" "out/b.png"
     res.2.2 = (some "b.png", none) ∨
     ∃ s : ℚ, res.2.2 = (none, some s) ∧ st.similarity_threshold ≤ s) :=
  capture_result_shapes (fun _ _ => 99) (fun p => p = "a.png")
    { save_path := some "out", duration := 60, interval := 5, region := none,
      is_running := true, similarity_threshold := 95,
      last_screenshot_path := some "a.png" }
    "b.png" "out/b.png" true _ rfl

/-- C9: for every prior state, `setup` resets `last_screenshot_path` to
`None` while storing the given save path, duration, interval, region and
similarity threshold, so a new run never compares its first capture
against an image kept by a previous run on the same object. -/
theorem setup_resets_last_screenshot_path
    (st : ScreenshotCapture) (save_path : String) (duration interval : Int)
    (region : Option (List Int)) (similarity_threshold : ℚ) :
    (setup st save_path duration interval region similarity_threshold).last_screenshot_path
      = none ∧
    (setup st save_path duration interval region similarity_threshold).save_path
      = some save_path ∧
    (setup st save_path duration interval region similarity_threshold).duration
      = duration ∧
    (setup st save_path duration interval region similarity_threshold).interval
      = interval ∧
    (setup st save_path duration interval region similarity_threshold).region
      = region ∧
    (setup st save_path duration interval region similarity_threshold).similarity_threshold
      = similarity_threshold :=
  ⟨rfl, rfl, rfl, rfl, rfl, rfl⟩

/-! ## Similarity comparator (`calculate_similarity`) -/

/-- A grayscale raster as seen by `_resize_images_to_match`: a shape
(`numpy .shape`, height × width) plus abstract pixel content. -/
structure GrayImg (α : Type) where
  h : Nat
  w : Nat
  data : α
deriving Repr, DecidableEq

/-- Embeds `ScreenshotCapture._resize_images_to_match`
(screenshot_module.py, lines 216-234): if the shapes differ, both images
are resized (via the external `cv2.resize`, passed as `cv2_resize`,
taking width then height as in the source's `(w, h)` argument) to the
smaller common dimensions; otherwise both are returned unchanged. -/
def resize_images_to_match {α : Type}
    (cv2_resize : GrayImg α → Nat → Nat → GrayImg α)
    (img1 img2 : GrayImg α) : GrayImg α × GrayImg α :=
  if (img1.h, img1.w) ≠ (img2.h, img2.w) then
    let h := min img1.h img2.h
    let w := min img1.w img2.w
    (cv2_resize img1 w h, cv2_resize img2 w h)
  else
    (img1, img2)

/-- Embeds `ScreenshotCapture.calculate_similarity`
(screenshot_module.py, lines 180-214).  The external cv2/skimage
primitives are parameters: `imread` returns `none` on decode failure
(as `cv2.imread` returns `None`), `cvtColor` and `ssim` may raise
(returned as `Except.error`).  The wrapping `try/except` makes the
function total: any error inside the body yields `0`, as does a decode
failure of either image. -/
def calculate_similarity {Color α : Type}
    (imread : String → Option Color)
    (cvtColor : Color → Except String (GrayImg α))
    (cv2_resize : GrayImg α → Nat → Nat → GrayImg α)
    (ssim : GrayImg α → GrayImg α → Except String ℚ)
    (image1_path image2_path : String) : ℚ :=
  let body : Except String ℚ :=
    match imread image1_path, imread image2_path with
    | some img1, some img2 =>
      match cvtColor img1 with
      | Except.error e => Except.error e
      | Except.ok gray1 =>
        match cvtColor img2 with
        | Except.error e => Except.error e
        | Except.ok gray2 =>
          let resized := resize_images_to_match cv2_resize gray1 gray2
          match ssim resized.1 resized.2 with
          | Except.error e => Except.error e
          | Except.ok similarity_index => Except.ok (similarity_index * 100)
    | _, _ => Except.ok 0
  match body with
  | Except.ok v => v
  | Except.error _ => 0

/-- C3: the comparator never raises: it is a total function whose value
is settled in every case — `0` whenever either image fails to decode,
`0` whenever any internal step errors (`cvtColor` on either image, or
`ssim` on the resized pair), and `s * 100` when every step succeeds
with similarity index `s`; so a corrupted or unreadable prior image
never blocks future captures. -/
theorem calculate_similarity_never_throws
    {Color α : Type} (imread : String → Option Color)
    (cvtColor : Color → Except String (GrayImg α))
    (cv2_resize : GrayImg α → Nat → Nat → GrayImg α)
    (ssim : GrayImg α → GrayImg α → Except String ℚ)
    (image1_path image2_path : String) :
    ((imread image1_path = none ∨ imread image2_path = none) →
      calculate_similarity imread cvtColor cv2_resize ssim image1_path image2_path = 0) ∧
    (∀ img1 img2 e, imread image1_path = some img1 → imread image2_path = some img2 →
      cvtColor img1 = Except.error e →
      calculate_similarity imread cvtColor cv2_resize ssim image1_path image2_path = 0) ∧
    (∀ img1 img2 g1 e, imread image1_path = some img1 → imread image2_path = some img2 →
      cvtColor img1 = Except.ok g1 → cvtColor img2 = Except.error e →
      calculate_similarity imread cvtColor cv2_resize ssim image1_path image2_path = 0) ∧
    (∀ img1 img2 g1 g2 e, imread image1_path = some img1 → imread image2_path = some img2 →
      cvtColor img1 = Except.ok g1 → cvtColor img2 = Except.ok g2 →
      ssim (resize_images_to_match cv2_resize g1 g2).1
        (resize_images_to_match cv2_resize g1 g2).2 = Except.error e →
      calculate_similarity imread cvtColor cv2_resize ssim image1_path image2_path = 0) ∧
    (∀ img1 img2 g1 g2 s, imread image1_path = some img1 → imread image2_path = some img2 →
      cvtColor img1 = Except.ok g1 → cvtColor img2 = Except.ok g2 →
      ssim (resize_images_to_match cv2_resize g1 g2).1
        (resize_images_to_match cv2_resize g1 g2).2 = Except.ok s →
      calculate_similarity imread cvtColor cv2_resize ssim image1_path image2_path
        = s * 100) := by
  refine ⟨?_, ?_, ?_, ?_, ?_⟩
  · intro hfail
    unfold calculate_similarity
    rcases hfail with hf | hf
    · rw [hf]
    · rw [hf]
      match imread image1_path with
      | none => rfl
      | some i1 => rfl
  · intro img1 img2 e h1 h2 hc
    unfold calculate_similarity
    rw [h1, h2]
    simp [hc]
  · intro img1 img2 g1 e h1 h2 hc1 hc2
    unfold calculate_similarity
    rw [h1, h2]
    simp [hc1, hc2]
  · intro img1 img2 g1 g2 e h1 h2 hc1 hc2 hs
    unfold calculate_similarity
    rw [h1, h2]
    simp [hc1, hc2, hs]
  · intro img1 img2 g1 g2 s h1 h2 hc1 hc2 hs
    unfold calculate_similarity
    rw [h1, h2]
    simp [hc1, hc2, hs]

/-- Witness for C3: a decoder that fails on `"missing.png"` and an
`ssim` that always raises (as skimage does on images smaller than its
window); the comparator returns 0 in both the decode-failure and the
internal-error case. -/
theorem calculate_similarity_never_throws_witness :
    calculate_similarity (fun p => if p = "missing.png" then none else some ())
      (fun _ => Except.ok (⟨2, 2, ()⟩ : GrayImg Unit)) (fun _ w h => ⟨h, w, ()⟩)
      (fun _ _ => Except.error "win_size exceeds image extent")
      "a.png" "missing.png" = 0 ∧
    calculate_similarity (fun p => if p = "missing.png" then none else some ())
      (fun _ => Except.ok (⟨2, 2, ()⟩ : GrayImg Unit)) (fun _ w h => ⟨h, w, ()⟩)
      (fun _ _ => Except.error "win_size exceeds image extent")
      "a.png" "b.png" = 0 :=
  ⟨(calculate_similarity_never_throws
      (fun p => if p = "missing.png" then none else some ())
      (fun _ => Except.ok (⟨2, 2, ()⟩ : GrayImg Unit)) (fun _ w h => ⟨h, w, ()⟩)
      (fun _ _ => Except.error "win_size exceeds image extent")
      "a.png" "missing.png").1 (Or.inr (by simp)),
   (calculate_similarity_never_throws
      (fun p => if p = "missing.png" then none else some ())
      (fun _ => Except.ok (⟨2, 2, ()⟩ : GrayImg Unit)) (fun _ w h => ⟨h, w, ()⟩)
      (fun _ _ => Except.error "win_size exceeds image extent")
      "a.png" "b.png").2.2.2.1 () () ⟨2, 2, ()⟩ ⟨2, 2, ()⟩
      "win_size exceeds image extent" (by simp) (by simp) rfl rfl rfl⟩

/-! ## The capture worker loop (`desktop_app.py`, `_capture_worker`) -/

/-- Python `int()` applied to a nonnegative-or-negative rational:
truncation toward zero. -/
def pyIntTrunc (q : ℚ) : Int := Int.tdiv q.num q.den

/-- The UI callbacks scheduled by `_capture_worker` via `root.after`
(desktop_app.py, lines 566-608), in scheduling order. -/
inductive UIEvent where
  | update_duplicate_status (similarity : Option ℚ)
  | update_time_info (elapsed remaining : Int) (progress : ℚ)
  | update_progress (count : Nat) (elapsed remaining : Int) (progress : ℚ)
      (filename : String)
  | show_error (message : String)
  | capture_complete (count duplicate_count : Nat)
deriving Repr, DecidableEq

/-- The status events of one loop iteration of `_capture_worker` whose
capture succeeded: on a duplicate (`filename is None`),
`update_duplicate_status` then `update_time_info`; on a kept capture,
`update_progress` with the incremented count.  In both cases
`progress = elapsed / duration * 100` is recomputed from the wall-clock
`elapsed`, with no clamping. -/
def worker_tick_events (duration : ℚ) (count : Nat) (elapsed : ℚ)
    (filename : Option String) (similarity : Option ℚ) : List UIEvent :=
  match filename with
  | none =>
    [UIEvent.update_duplicate_status similarity,
     UIEvent.update_time_info (pyIntTrunc elapsed) (pyIntTrunc (duration - elapsed))
       (elapsed / duration * 100)]
  | some f =>
    [UIEvent.update_progress (count + 1) (pyIntTrunc elapsed)
       (pyIntTrunc (duration - elapsed)) (elapsed / duration * 100) f]

/-- Embeds the `while self.is_capturing` loop of `_capture_worker`
(desktop_app.py, lines 572-604).  Each list element is one iteration in
which the flag was observed true: the wall-clock `elapsed` at that
iteration and the outcome of `self.screenshot_capture.capture()`
(`Except.error` when it raised).  An empty list means the flag went
false (`stop()`).  Returns the scheduled events and the final
`(count, duplicate_count)`.  The `time.sleep(interval)` between
iterations schedules no event and is not represented. -/
def capture_worker_loop (duration : ℚ)
    (ticks : List (ℚ × Except String (Option String × Option ℚ)))
    (count duplicate_count : Nat) : List UIEvent × Nat × Nat :=
  match ticks with
  | [] => ([], count, duplicate_count)
  | (elapsed, res) :: rest =>
    match res with
    | Except.error e => ([UIEvent.show_error e], count, duplicate_count)
    | Except.ok (filename, similarity) =>
      let count' := match filename with
        | some _ => count + 1
        | none => count
      let duplicate_count' := match filename with
        | some _ => duplicate_count
        | none => duplicate_count + 1
      let evs := worker_tick_events duration count elapsed filename similarity
      if duration ≤ elapsed then
        (evs, count', duplicate_count')
      else
        let r := capture_worker_loop duration rest count' duplicate_count'
        (evs ++ r.1, r.2.1, r.2.2)

/-- Embeds `_capture_worker` end to end (desktop_app.py, lines 566-608):
run the loop from zero counters, then schedule the single terminal
`capture_complete(count, duplicate_count)`. -/
def capture_worker (duration : ℚ)
    (ticks : List (ℚ × Except String (Option String × Option ℚ))) : List UIEvent :=
  let r := capture_worker_loop duration ticks 0 0
  r.1 ++ [UIEvent.capture_complete r.2.1 r.2.2]

/-- Number of iterations of a tick list whose capture succeeded and was
kept (`filename` set) — the value `count` accumulates over them. -/
def keptCount (ticks : List (ℚ × Except String (Option String × Option ℚ))) : Nat :=
  ticks.countP (fun t => match t.2 with
    | Except.ok (some _, _) => true
    | _ => false)

/-- Number of iterations of a tick list whose capture succeeded as a
duplicate (`filename is None`) — `duplicate_count` accumulates over
them. -/
def dupCount (ticks : List (ℚ × Except String (Option String × Option ℚ))) : Nat :=
  ticks.countP (fun t => match t.2 with
    | Except.ok (none, _) => true
    | _ => false)

/-- C6: on every successful tick, duplicate or kept alike, the scheduled
status event carries `progressPercent = elapsed / duration * 100`
recomputed from wall-clock elapsed time, and the core never clamps it
above 100: when `0 < duration < elapsed` the reported value exceeds
100. -/
theorem worker_tick_progress_unclamped
    (duration elapsed : ℚ) (count : Nat) (similarity : Option ℚ) (f : String) :
    worker_tick_events duration count elapsed none similarity =
      [UIEvent.update_duplicate_status similarity,
       UIEvent.update_time_info (pyIntTrunc elapsed) (pyIntTrunc (duration - elapsed))
         (elapsed / duration * 100)] ∧
    worker_tick_events duration count elapsed (some f) similarity =
      [UIEvent.update_progress (count + 1) (pyIntTrunc elapsed)
         (pyIntTrunc (duration - elapsed)) (elapsed / duration * 100) f] ∧
    (0 < duration → duration < elapsed → 100 < elapsed / duration * 100) := by
  refine ⟨rfl, rfl, fun hd he => ?_⟩
  have h1 : (1 : ℚ) < elapsed / duration := (one_lt_div hd).mpr he
  linarith

/-- Witness for C6: `duration = 10`, `elapsed = 25` — the tick events
carry `25/10*100 = 250`, strictly above 100. -/
theorem worker_tick_progress_unclamped_witness :
    (0 : ℚ) < 10 ∧ (10 : ℚ) < 25 ∧ 100 < (25 : ℚ) / 10 * 100 ∧
    worker_tick_events 10 0 25 none (some 99) =
      [UIEvent.update_duplicate_status (some 99),
       UIEvent.update_time_info (pyIntTrunc 25) (pyIntTrunc (10 - 25))
         ((25 : ℚ) / 10 * 100)] :=
  ⟨by norm_num, by norm_num,
   (worker_tick_progress_unclamped 10 25 0 (some 99) "a.png").2.2
     (by norm_num) (by norm_num),
   (worker_tick_progress_unclamped 10 25 0 (some 99) "a.png").1⟩

/-- Fail-fast behaviour of the loop body: with the accumulators at
`(count, duplicate_count)`, running the loop on an error-free,
non-terminating prefix followed by a raising iteration schedules the
prefix's events then `show_error`, touches none of the remaining
iterations, and returns the counts accumulated over the prefix. -/
theorem capture_worker_loop_append_error
    (duration : ℚ) (msg : String) (e : ℚ)
    (pre rest : List (ℚ × Except String (Option String × Option ℚ)))
    (c d : Nat)
    (hok : ∀ t ∈ pre, (∃ r, t.2 = Except.ok r) ∧ t.1 < duration) :
    capture_worker_loop duration (pre ++ (e, Except.error msg) :: rest) c d =
      ((capture_worker_loop duration pre c d).1 ++ [UIEvent.show_error msg],
       c + keptCount pre, d + dupCount pre) := by
  induction pre generalizing c d with
  | nil => simp [capture_worker_loop, keptCount, dupCount]
  | cons t pre ih =>
    obtain ⟨⟨r, hr⟩, hlt⟩ := hok t (List.mem_cons_self t pre)
    obtain ⟨filename, similarity⟩ := r
    obtain ⟨elapsed, res⟩ := t
    simp only at hr
    subst hr
    have hok' : ∀ t ∈ pre, (∃ r, t.2 = Except.ok r) ∧ t.1 < duration :=
      fun t ht => hok t (List.mem_cons_of_mem _ ht)
    have hnle : ¬ duration ≤ elapsed := not_le.mpr hlt
    cases filename with
    | none =>
      simp only [List.cons_append, capture_worker_loop, if_neg hnle, List.append_eq]
      rw [ih c (d + 1) hok']
      simp only [keptCount, dupCount, List.countP_cons, Prod.mk.injEq]
      refine ⟨by simp, by simp, by simp; omega⟩
    | some f =>
      simp only [List.cons_append, capture_worker_loop, if_neg hnle, List.append_eq]
      rw [ih (c + 1) d hok']
      simp only [keptCount, dupCount, List.countP_cons, Prod.mk.injEq]
      refine ⟨by simp, by simp; omega, by simp⟩

/-- C7: if some iteration's `capture()` raises, after an error-free
prefix of iterations none of which reached the duration bound, the
worker schedules the prefix's status events, then the `show_error`
event carrying the exception's description, performs no further
iterations (the remaining ticks contribute nothing), and still
schedules exactly one terminal `capture_complete` whose counts are
those accumulated before the failure. -/
theorem capture_worker_fail_fast
    (duration : ℚ) (msg : String) (e : ℚ)
    (pre rest : List (ℚ × Except String (Option String × Option ℚ)))
    (hok : ∀ t ∈ pre, (∃ r, t.2 = Except.ok r) ∧ t.1 < duration) :
    capture_worker duration (pre ++ (e, Except.error msg) :: rest) =
      (capture_worker_loop duration pre 0 0).1 ++
        [UIEvent.show_error msg,
         UIEvent.capture_complete (keptCount pre) (dupCount pre)] := by
  unfold capture_worker
  rw [capture_worker_loop_append_error duration msg e pre rest 0 0 hok]
  simp

/-- Witness for C7: one kept tick at `elapsed = 3`, then a raising
capture, then a would-be tick that is never processed; the run ends
with `show_error` and `capture_complete 1 0`. -/
theorem capture_worker_fail_fast_witness :
    capture_worker 10
        ([(3, Except.ok (some "a.png", none))] ++
          (6, Except.error "permission denied") ::
            [(9, Except.ok (some "never.png", none))]) =
      (capture_worker_loop 10 [(3, Except.ok (some "a.png", none))] 0 0).1 ++
        [UIEvent.show_error "permission denied",
         UIEvent.capture_complete
           (keptCount [(3, Except.ok (some "a.png", none))])
           (dupCount [(3, Except.ok (some "a.png", none))])] :=
  capture_worker_fail_fast 10 "permission denied" 6
    [(3, Except.ok (some "a.png", none))]
    [(9, Except.ok (some "never.png", none))]
    (by
      intro t ht
      simp only [List.mem_singleton] at ht
      subst ht
      exact ⟨⟨(some "a.png", none), rfl⟩, by norm_num⟩)

end SakuraSnap
